import Mathlib

/-!
Verification of the fleet-simulation and adaptive-routing core of the
`nyash_logistics` backend (files `simulation.py`, `routing_engine.py`,
`map_data.py`, `agent_service.py`, `models.py`).

The Python code is shallowly embedded: floats become exact rationals (`ℚ`),
in-place mutation becomes explicit state passing, a raised-and-caught Python
exception becomes an `Option`/explicit branch, and the two places where the
source computes a real square root (the per-tick interpolation ratio in
`_move_truck` and the straight-line fallback distance in `get_route`) are
abstracted as an explicit function parameter, since no verified property
depends on the numeric value produced there; theorems quantify over that
parameter.  External collaborators (the LLM decision source, the injectable
random draw, the HTTP provider) are oracles passed in as parameters.
-/

/-- Models `models.Location`: a latitude/longitude pair (Python floats, here
exact rationals). -/
structure Location where
  lat : ℚ
  lng : ℚ
deriving Repr, DecidableEq

/-- Models `models.Route`: a catalog route with cost attributes and the
operator-mutable `is_active` flag (default `True`). -/
structure Route where
  route_id : String
  origin : String
  destination : String
  distance_km : ℚ
  base_time_min : Int
  fuel_cost : ℚ
  toll_cost : ℚ
  congestion_risk : ℚ
  is_active : Bool := true
deriving Repr, DecidableEq

/-- Models `models.TruckState`, the per-truck mutable record advanced by the
simulation.  The Python `status` is a string literal type; it stays a string
here. -/
structure TruckState where
  truck_id : String
  current_node : String
  destination_node : String := ""
  route_nodes : List String
  location : Location
  fuel_percent : ℚ
  capacity_used_percent : ℚ
  status : String
  wait_time_ticks : Int := 0
  eta_minutes : Int
  alerts : List String := []
  thoughts : List String := []
  route_coordinates : List Location := []
  active_route_id : String := ""
deriving Repr, DecidableEq

/-- Models `models.AgentDecision`.  The dynamic `impact` dict is represented
by its two keys that `Simulation._trigger_random_event` reads:
`selected_route_id` and `new_route_nodes` (absent key = `none`). -/
structure AgentDecision where
  truck_id : String
  action : String
  reasoning : String
  confidence : ℚ
  impact_selected_route_id : Option String := none
  impact_new_route_nodes : Option (List String) := none
deriving Repr, DecidableEq

/-- Outcome of one call to the external decision source
(`agent_service.decide`): either the call raised an exception (caught at the
event-trigger boundary in `_trigger_random_event`), or it returned a decision
together with the reasoning trace. -/
inductive DecideOutcome where
  | raised
  | returned (decision : Option AgentDecision) (thoughts : List String)
deriving Repr, DecidableEq

/-- Does the second character list begin with the first?  (Python
`str.startswith`, on unpacked characters so that it computes by structural
recursion.) -/
def leadsWith : List Char → List Char → Bool
  | [], _ => true
  | _ :: _, [] => false
  | c :: cs, d :: ds => c == d && leadsWith cs ds

/-- Scans every suffix of the second list for the first one as a head. -/
def hasSub (sub : List Char) : List Char → Bool
  | [] => sub.isEmpty
  | c :: rest => leadsWith sub (c :: rest) || hasSub sub rest

/-- Models Python `sub in s` (substring containment). -/
def strContains (s sub : String) : Bool :=
  hasSub sub.data s.data

/-- Models `map_data.LOCATIONS_COORDS`: the nine named nodes of the closed
world and their coordinates.  Note that no key starts with (or contains)
`"FUEL"`. -/
def LOCATIONS_COORDS : List (String × (ℚ × ℚ)) :=
  [ ("HUB_SOUTH", (18.4466, 73.8567)),
    ("HUB_EAST", (18.5089, 73.9260)),
    ("HUB_NORTH_EAST", (18.5793, 73.9787)),
    ("DEST_WEST", (18.5913, 73.7389)),
    ("DEST_NORTH", (18.7606, 73.8635)),
    ("DEST_NORTH_WEST", (18.7217, 73.6756)),
    ("J_CENTRAL", (18.5204, 73.8567)),
    ("J_BYPASS", (18.5074, 73.8077)),
    ("J_NORTH", (18.6298, 73.7997)) ]

/-- Dictionary lookup in `LOCATIONS_COORDS` (Python `nid in LOCATIONS_COORDS`
/ `LOCATIONS_COORDS[nid]`). -/
def locationsCoordsGet (nid : String) : Option (ℚ × ℚ) :=
  (LOCATIONS_COORDS.find? (fun p => p.1 == nid)).map (fun p => p.2)

/-- Models `map_data.ROUTE_PATHS`: node paths for each fixed route id. -/
def ROUTE_PATHS : List (String × List String) :=
  [ ("R_SW_HWY", ["J_BYPASS", "DEST_WEST"]),
    ("R_SW_CITY", ["J_CENTRAL", "DEST_WEST"]),
    ("R_SW_SATELLITE", ["J_CENTRAL", "J_NORTH", "DEST_WEST"]),
    ("R_EN_HWY", ["J_CENTRAL", "J_NORTH", "DEST_NORTH"]),
    ("R_EN_BYPASS", ["J_BYPASS", "J_CENTRAL", "DEST_NORTH"]),
    ("R_EN_VILLAGE", ["HUB_NORTH_EAST", "DEST_NORTH"]),
    ("R_NENW_DIRECT", ["J_NORTH", "DEST_NORTH_WEST"]),
    ("R_NENW_ALT", ["J_CENTRAL", "DEST_NORTH_WEST"]) ]

/-- Dictionary lookup in `ROUTE_PATHS`. -/
def routePathsGet (rid : String) : Option (List String) :=
  (ROUTE_PATHS.find? (fun p => p.1 == rid)).map (fun p => p.2)

/-- Models `map_data.ROUTES` in its load-time state (every flag active).  The
catalog is mutated externally by operator toggles, so the simulation
functions below take the current catalog as a parameter. -/
def mkRouteEntry (rid origin dest : String) (dist : ℚ) (tmin : Int)
    (fcost tcost crisk : ℚ) : String × Route :=
  (rid, { route_id := rid, origin := origin, destination := dest,
          distance_km := dist, base_time_min := tmin, fuel_cost := fcost,
          toll_cost := tcost, congestion_risk := crisk })

def defaultRoutes : List (String × Route) :=
  [ mkRouteEntry "R_SW_HWY" "HUB_SOUTH" "DEST_WEST" 15 30 6 100 0.4,
    mkRouteEntry "R_SW_CITY" "HUB_SOUTH" "DEST_WEST" 22 55 8.5 0 0.8,
    mkRouteEntry "R_SW_SATELLITE" "HUB_SOUTH" "DEST_WEST" 28 45 9 50 0.2,
    mkRouteEntry "R_EN_HWY" "HUB_EAST" "DEST_NORTH" 40 70 11 120 0.5,
    mkRouteEntry "R_EN_BYPASS" "HUB_EAST" "DEST_NORTH" 45 85 13 0 0.3,
    mkRouteEntry "R_EN_VILLAGE" "HUB_EAST" "DEST_NORTH" 38 110 10 0 0.1,
    mkRouteEntry "R_NENW_DIRECT" "HUB_NORTH_EAST" "DEST_NORTH_WEST" 35 60 10 80 0.5,
    mkRouteEntry "R_NENW_ALT" "HUB_NORTH_EAST" "DEST_NORTH_WEST" 42 90 12 0 0.7 ]

/-- Dictionary lookup in a routes catalog (Python `rid in ROUTES` /
`ROUTES[rid]`). -/
def routesGet (routes : List (String × Route)) (rid : String) : Option Route :=
  (routes.find? (fun p => p.1 == rid)).map (fun p => p.2)

/-- Models `RoutingEngine.deactivate_route`: flip the catalog flag of one
route to inactive (the operator toggle the simulation observes). -/
def deactivate_route (route_id : String) (routes : List (String × Route)) :
    List (String × Route) :=
  routes.map (fun p =>
    if p.1 = route_id then (p.1, { p.2 with is_active := false }) else p)

/-- Models `Simulation._resolve_route`: look each node id up in
`LOCATIONS_COORDS` and keep the coordinates of the ids that are present —
unknown ids are silently dropped. -/
def resolve_route (route_nodes : List String) : List Location :=
  route_nodes.filterMap (fun nid =>
    (locationsCoordsGet nid).map (fun c => Location.mk c.1 c.2))

/-- Squared planar distance from a truck location to a node coordinate; the
source minimises the square root of this, which has the same minimiser. -/
def sqDistTo (loc : Location) (c : ℚ × ℚ) : ℚ :=
  (c.1 - loc.lat) * (c.1 - loc.lat) + (c.2 - loc.lng) * (c.2 - loc.lng)

/-- The `"FUEL"`-keyed entries of `LOCATIONS_COORDS`, as computed by the
dict comprehension in `agent_service._heuristic_fallback` (and by the
`get_fuel_stations` tool): `k.startswith("FUEL")`. -/
def fuelStationEntries : List (String × (ℚ × ℚ)) :=
  LOCATIONS_COORDS.filter (fun p => leadsWith "FUEL".data p.1.data)

/-- Models `min(stations.keys, key=distance)` in `_heuristic_fallback`:
Python `min` raises `ValueError` on an empty sequence (modelled as `none`)
and keeps the first minimiser on ties (strict-less fold). -/
def closestStation (loc : Location) : Option String :=
  match fuelStationEntries with
  | [] => none
  | e :: rest =>
      some (rest.foldl
        (fun best p => if sqDistTo loc p.2 < sqDistTo loc best.2 then p else best)
        e).1

/-- Models `AgentService._heuristic_fallback` (the non-AI safety protocol).
`none` models the call raising an exception: that happens exactly when the
`LOW_FUEL` branch takes `min` over the empty set of FUEL-prefixed nodes.
The rate-limit cooldown bookkeeping on the service object is omitted: it
only affects which error text is displayed. -/
def heuristic_fallback (routes : List (String × Route)) (truck : TruckState)
    (event_type : String) (error_msg : String) :
    Option (AgentDecision × List String) :=
  let thoughts := ["System: LLM Unavailable. Initiating Safety Protocol."]
  if strContains event_type "LOW_FUEL" then
    match closestStation truck.location with
    | none => none
    | some st =>
        some ({ truck_id := truck.truck_id, action := "REROUTE",
                reasoning := "SAFETY PROTOCOL: Low fuel detected and AI unavailable. Rerouting to nearest station.",
                confidence := 0,
                impact_new_route_nodes := some [st, truck.destination_node] },
              thoughts ++ ["Heuristic: Target " ++ st ++ " as emergency stop."])
  else if strContains event_type "ROAD_CLOSED" || strContains event_type "BLOCKED" then
    let alt := routes.filter (fun p =>
      p.2.is_active && p.2.route_id != truck.active_route_id &&
        p.2.destination == truck.destination_node)
    match alt with
    | [] =>
        some ({ truck_id := truck.truck_id, action := "CONTINUE",
                reasoning := error_msg, confidence := 0 }, thoughts)
    | best :: _ =>
        some ({ truck_id := truck.truck_id, action := "REROUTE",
                reasoning := "SAFETY PROTOCOL: Road blocked and AI unavailable. Switched to alternative: " ++ best.2.route_id ++ ".",
                confidence := 0,
                impact_selected_route_id := some best.2.route_id },
              thoughts ++ ["Heuristic: Using backup route " ++ best.2.route_id ++ "."])
  else
    some ({ truck_id := truck.truck_id, action := "CONTINUE",
            reasoning := error_msg, confidence := 0 }, thoughts)

/-- Structural part of the REROUTE branch of `_trigger_random_event`
(lines 220-240): replace `route_nodes` by `[current_node] + nodes`, set
REROUTING status and the ad-hoc/catalog `active_route_id`, and estimate the
ETA.  Python truthiness: an absent or empty `new_route_nodes` falls through
to `selected_route_id`, which is used only when non-empty and present in
`ROUTE_PATHS`. -/
def applyRerouteStructure (routes : List (String × Route)) (d : AgentDecision)
    (t : TruckState) : TruckState :=
  match d.impact_new_route_nodes with
  | some (n :: rest) =>
      { t with route_nodes := t.current_node :: n :: rest,
               status := "REROUTING",
               active_route_id := "CUSTOM_AI_ROUTE",
               eta_minutes := (n :: rest).length * 10 }
  | _ =>
      match d.impact_selected_route_id with
      | some rid =>
          if rid = "" then t
          else
            match routePathsGet rid with
            | some path =>
                let t4 := { t with route_nodes := t.current_node :: path,
                                   status := "REROUTING",
                                   active_route_id := rid }
                match routesGet routes rid with
                | some r => { t4 with eta_minutes := r.base_time_min }
                | none => t4
            | none => t
      | none => t

/-- The full REROUTE branch of `_trigger_random_event` (lines 217-250):
structure update, then coordinate recomputation and the reroute alert
(these last two run even when no impact could be applied), then the
LOW_FUEL-specific status/alert overwrite. -/
def applyRerouteDecision (routes : List (String × Route)) (d : AgentDecision)
    (event_type : String) (t : TruckState) : TruckState :=
  let t3 := applyRerouteStructure routes d t
  let t5 := { t3 with route_coordinates := resolve_route t3.route_nodes,
                      alerts := ["Rerouted: " ++ d.reasoning] }
  if event_type = "LOW_FUEL" then
    { t5 with status := "REROUTING", alerts := ["Heading to fuel station..."] }
  else t5

/-- Python `not decision or decision.action != "REROUTE"` (line 256). -/
def decisionNotReroute : Option AgentDecision → Bool
  | none => true
  | some d => d.action != "REROUTE"

/-- The safety-override block of `_trigger_random_event` (lines 255-268):
invoke the heuristic fallback directly and apply its explicit node list.  If
the fallback raises (see `heuristic_fallback`), the exception propagates to
the `except` at the event boundary, leaving the truck as already mutated. -/
def applySafetyOverride (routes : List (String × Route)) (t : TruckState) :
    TruckState :=
  match heuristic_fallback routes t "LOW_FUEL" "Safety override: Fuel critical." with
  | none => t
  | some (d2, _) =>
      match d2.impact_new_route_nodes with
      | some (n :: rest) =>
          { t with route_nodes := t.current_node :: n :: rest,
                   status := "REROUTING",
                   active_route_id := "CUSTOM_AI_ROUTE",
                   route_coordinates := resolve_route (t.current_node :: n :: rest),
                   alerts := ["Heading to fuel station (Safety Override)"],
                   thoughts := t.thoughts ++ ["Simulation: Overrode AI decision to ensure vehicle safety."] }
      | _ => t

/-- Models `Simulation._trigger_random_event` given the outcome of the
decision-source call (the event type is already chosen by the caller).  A
raised decision call is caught by the surrounding `try` and leaves the truck
untouched; otherwise the reasoning trace is stored, a REROUTE decision is
applied, and on LOW_FUEL events a non-REROUTE decision triggers the safety
override. -/
def trigger_random_event (routes : List (String × Route))
    (outcome : DecideOutcome) (event_type : String) (truck : TruckState) :
    TruckState :=
  match outcome with
  | .raised => truck
  | .returned dOpt thoughts =>
      let t1 := { truck with thoughts := thoughts }
      let t2 :=
        match dOpt with
        | some d =>
            if d.action = "REROUTE" then applyRerouteDecision routes d event_type t1
            else t1
        | none => t1
      if event_type = "LOW_FUEL" ∧ decisionNotReroute dOpt then
        applySafetyOverride routes t2
      else t2

/-- Per-tick step magnitude in degrees (`speed = 0.015` in `_move_truck`). -/
def simSpeed : ℚ := 0.015

/-- Squared displacement toward the target waypoint, `dist ** 2` in
`_move_truck`.  The source compares `dist < speed` where `dist` is the real
square root of this quantity; since both sides are nonnegative that is
exactly `sqDisp < speed * speed`, which is how the branch is decided
below. -/
def sqDisp (loc target : Location) : ℚ :=
  (target.lat - loc.lat) * (target.lat - loc.lat) +
    (target.lng - loc.lng) * (target.lng - loc.lng)

/-- Pop the consumed waypoint coordinate (lines 156-157): only when more
than one coordinate remains. -/
def popCoord (t : TruckState) : TruckState :=
  if t.route_coordinates.length > 1
  then { t with route_coordinates := t.route_coordinates.drop 1 }
  else t

/-- Pop the reached node and update `current_node` (lines 160-162): only
when more than one node remains. -/
def popNode (t : TruckState) : TruckState :=
  match t.route_nodes with
  | _ :: next :: rest => { t with current_node := next, route_nodes := next :: rest }
  | _ => t

/-- Arrival check (lines 165-167): at most one node left means arrived. -/
def checkArrival (t : TruckState) : TruckState :=
  if t.route_nodes.length ≤ 1
  then { t with status := "ARRIVED", eta_minutes := 0 }
  else t

/-- Refuel check (lines 170-175): `"FUEL" in truck.current_node` starts the
5-tick refuelling wait. -/
def checkRefuel (t : TruckState) : TruckState :=
  if strContains t.current_node "FUEL" then
    { t with status := "REFUELING", wait_time_ticks := 5,
             alerts := ["Refueling in progress..."] }
  else t

/-- The waypoint-reached branch of `_move_truck` (lines 153-175): snap to
the target, pop the consumed waypoint from coordinates and nodes, update
`current_node`, check arrival, and check whether the node just reached is a
fuel station. -/
def reachWaypoint (t0 : TruckState) (target : Location) : TruckState :=
  checkRefuel (checkArrival (popNode (popCoord { t0 with location := target })))

/-- Fuel consumption of one progressing tick (lines 184-187):
`0.5 * (1 + capacity/100)`, floored at 0 by `max`. -/
def applyConsumption (t : TruckState) : TruckState :=
  { t with fuel_percent := max 0 (t.fuel_percent - 0.5 * (1 + t.capacity_used_percent / 100)) }

/-- The low-fuel check of `_move_truck` (lines 189-193): below 20% and not
already rerouting/refueling/stopped and no fuel-seeking alert pending,
trigger a LOW_FUEL event through the decision pipeline. -/
def applyLowFuelCheck (routes : List (String × Route))
    (decide : String → DecideOutcome) (t : TruckState) : TruckState :=
  if t.fuel_percent < 20 ∧
     (t.status ≠ "REROUTING" ∧ t.status ≠ "REFUELING" ∧ t.status ≠ "STOPPED_FOR_FUEL") ∧
     (t.alerts.any (fun a => strContains a "Heading to fuel station")) = false then
    trigger_random_event routes (decide "LOW_FUEL") "LOW_FUEL" t
  else t

/-- ETA countdown (lines 195-196). -/
def applyEtaTick (t : TruckState) : TruckState :=
  if t.eta_minutes > 0 then { t with eta_minutes := t.eta_minutes - 1 } else t

/-- Main body of `Simulation._move_truck` after the REFUELING prelude
(lines 135-199): the no-plan early returns, then either the snap-to-waypoint
branch or interpolation toward the target (the interpolated position
involves a real square root and is supplied by the `interp` parameter; no
claim depends on its value), followed by consumption, the low-fuel check
and the ETA countdown. -/
def moveTruckCore (routes : List (String × Route))
    (decide : String → DecideOutcome) (interp : Location → Location → Location)
    (t0 : TruckState) : TruckState :=
  if t0.route_nodes.length < 2 then { t0 with status := "IDLE" }
  else
    match t0.route_coordinates[1]? with
    | none => { t0 with status := "IDLE" }
    | some target =>
        let t1 : TruckState :=
          if sqDisp t0.location target < simSpeed * simSpeed then
            reachWaypoint t0 target
          else { t0 with location := interp t0.location target }
        applyEtaTick (applyLowFuelCheck routes decide (applyConsumption t1))

/-- Models `Simulation._move_truck` (lines 122-199): the REFUELING sub-state
first (waiting decrements and returns; completion refills and falls through
to movement in the same call), then the movement/consumption body. -/
def move_truck (routes : List (String × Route))
    (decide : String → DecideOutcome) (interp : Location → Location → Location)
    (truck : TruckState) : TruckState :=
  if truck.status = "REFUELING" then
    if truck.wait_time_ticks > 0 then
      { truck with wait_time_ticks := truck.wait_time_ticks - 1 }
    else
      moveTruckCore routes decide interp
        { truck with fuel_percent := 100, status := "EN_ROUTE",
                     alerts := ["Refueling complete. Tank size: 100%"] }
  else moveTruckCore routes decide interp truck

/-- The movement phase of the per-truck body of `Simulation.tick`
(lines 105-116): only trucks that are EN_ROUTE or REROUTING act; an
active route flagged inactive in the catalog raises a deduplicated
ROAD_CLOSED_BY_DISPATCH event and skips movement for the tick; otherwise
the truck moves. -/
def tickMovePhase (routes : List (String × Route))
    (decide : String → DecideOutcome) (interp : Location → Location → Location)
    (truck : TruckState) : TruckState :=
  if truck.status = "EN_ROUTE" ∨ truck.status = "REROUTING" then
    match routesGet routes truck.active_route_id with
    | some r =>
        if r.is_active = false then
          if (truck.alerts.any (fun a => strContains a "Blocked route detected")) = false then
            trigger_random_event routes (decide "ROAD_CLOSED_BY_DISPATCH")
              "ROAD_CLOSED_BY_DISPATCH"
              { truck with alerts := ["Blocked route detected! Requesting AI reroute..."] }
          else truck
        else move_truck routes decide interp truck
    | none => move_truck routes decide interp truck
  else truck

/-- Models the per-truck body of `Simulation.tick` (lines 105-120): the
movement phase, then, independently of status, the random-event draw.
`randomEvent` injects that draw (`none` = the 99.5% no-event case; the
source draws the event type from `["TRAFFIC_JAM", "NEW_LOAD_OFFER"]`). -/
def tick_truck (routes : List (String × Route))
    (decide : String → DecideOutcome) (interp : Location → Location → Location)
    (randomEvent : Option String) (truck : TruckState) : TruckState :=
  let t1 := tickMovePhase routes decide interp truck
  match randomEvent with
  | some ev => trigger_random_event routes (decide ev) ev t1
  | none => t1

/-- The shape of the route payload returned by `RoutingEngine.get_route`:
distance, duration, polyline geometry and decoded coordinates. -/
structure RouteResult where
  distance_km : ℚ
  duration_min : ℚ
  geometry : String
  coordinates : List (ℚ × ℚ)
deriving Repr, DecidableEq

/-- What one HTTP request to the OSRM provider produces: a parsed success
(distance in metres, duration in seconds, geometry plus its `polyline`
decoding, which is an external library call and is therefore part of the
oracle answer), an HTTP 200 whose body has `code != "Ok"`, an HTTP 429
rate limit, or a network error / timeout / other non-2xx. -/
inductive ProviderResp where
  | ok (distance_m : ℚ) (duration_s : ℚ) (geometry : String) (decoded : List (ℚ × ℚ))
  | notOk
  | rateLimited
  | failed
deriving Repr, DecidableEq

/-- The module-level mutable state of `routing_engine.py`: `_ROUTE_CACHE`,
`_OSRM_CIRCUIT_OPEN`, `_OSRM_CIRCUIT_RESET_TIME`, `_LAST_OSRM_CALL`, plus
`osrm_calls`, an instrumentation counter of provider invocations (the
"call-count assertion" the specification itself asks tests to make). -/
structure EngineState where
  route_cache : List (String × RouteResult) := []
  circuit_open : Bool := false
  circuit_reset_time : ℚ := 0
  last_osrm_call : ℚ := 0
  osrm_calls : Nat := 0
deriving Repr, DecidableEq

/-- Models `_open_osrm_circuit`: open the breaker for 300 seconds (5
minutes) from now. -/
def open_osrm_circuit (now : ℚ) (s : EngineState) : EngineState :=
  { s with circuit_open := true, circuit_reset_time := now + 300 }

/-- Models `_osrm_cooldown`: with the circuit open and the reset time not
yet reached, raise (`none`); with the reset time passed, close the circuit
and proceed.  The 2.5-second inter-request sleep is backpressure, not
rejection: in this timeless model it only updates `last_osrm_call`. -/
def osrm_cooldown (now : ℚ) (s : EngineState) : Option EngineState :=
  if s.circuit_open then
    if now < s.circuit_reset_time then none
    else some { s with circuit_open := false, last_osrm_call := now }
  else some { s with last_osrm_call := now }

/-- Python `f"{q:.5f}"`: round to 5 decimal places (half away from zero at
exact halves of floats differs only at ties immaterial here). -/
def round5 (q : ℚ) : ℚ :=
  (Int.floor (q * 100000 + 1 / 2) : ℚ) / 100000

/-- The cache key of `get_route`: both endpoints rounded to 5 decimals. -/
def routeCacheKey (a b : ℚ × ℚ) : String :=
  toString (round5 a.1) ++ "," ++ toString (round5 a.2) ++ "|" ++
    toString (round5 b.1) ++ "," ++ toString (round5 b.2)

/-- Cache lookup (Python `cache_key in _ROUTE_CACHE`). -/
def cacheGet (cache : List (String × RouteResult)) (k : String) :
    Option RouteResult :=
  (cache.find? (fun p => p.1 == k)).map (fun p => p.2)

/-- Cache insert (`_ROUTE_CACHE[cache_key] = result`; the key is only ever
inserted after a miss, so ordering is immaterial). -/
def cacheInsert (cache : List (String × RouteResult)) (k : String)
    (v : RouteResult) : List (String × RouteResult) :=
  (k, v) :: cache

/-- The zero-cost result returned for epsilon-identical endpoints. -/
def zeroRouteResult (start : ℚ × ℚ) : RouteResult :=
  { distance_km := 0, duration_min := 0, geometry := "", coordinates := [start] }

/-- The straight-line fallback of `get_route` (lines 98-110).  `sqrtA`
abstracts the real square root in `(dist_lat**2 + dist_lng**2)**0.5`; the
claims depend only on which path produced the answer, never on this value. -/
def straightLineFallback (sqrtA : ℚ → ℚ) (start stop : ℚ × ℚ) : RouteResult :=
  let dist_lat := (stop.1 - start.1) * 111
  let dist_lng := (stop.2 - start.2) * 111 * 0.9
  let direct_dist := sqrtA (dist_lat * dist_lat + dist_lng * dist_lng)
  { distance_km := direct_dist, duration_min := direct_dist / 0.8,
    geometry := "", coordinates := [start, stop] }

/-- One iteration of the retry loop in `get_route` (lines 75-96): pass the
cooldown/breaker, invoke the provider, open the circuit on a 429 (the
subsequent `raise_for_status` then fails the attempt), fail silently on
exceptions, and fall through without returning when the body code is not
`"Ok"`.  Returns the parsed result on success. -/
def osrmAttempt (provider : Nat → ProviderResp) (now : ℚ) (s : EngineState) :
    Option RouteResult × EngineState :=
  match osrm_cooldown now s with
  | none => (none, s)
  | some s1 =>
      let resp := provider s1.osrm_calls
      let s2 := { s1 with osrm_calls := s1.osrm_calls + 1 }
      match resp with
      | .rateLimited => (none, open_osrm_circuit now s2)
      | .failed => (none, s2)
      | .notOk => (none, s2)
      | .ok dm ds geom coords =>
          (some { distance_km := dm / 1000, duration_min := ds / 60,
                  geometry := geom, coordinates := coords }, s2)

/-- Models `RoutingEngine.get_route`: epsilon short-circuit for identical
points, cache check, at most 2 provider attempts (a success populates the
cache), straight-line fallback otherwise (never cached). -/
def get_route (provider : Nat → ProviderResp) (sqrtA : ℚ → ℚ) (now : ℚ)
    (s : EngineState) (start stop : ℚ × ℚ) : RouteResult × EngineState :=
  if |start.1 - stop.1| < 0.0001 ∧ |start.2 - stop.2| < 0.0001 then
    (zeroRouteResult start, s)
  else
    let key := routeCacheKey start stop
    match cacheGet s.route_cache key with
    | some r => (r, s)
    | none =>
        match osrmAttempt provider now s with
        | (some r, s1) => (r, { s1 with route_cache := cacheInsert s1.route_cache key r })
        | (none, s1) =>
            match osrmAttempt provider now s1 with
            | (some r, s2) => (r, { s2 with route_cache := cacheInsert s2.route_cache key r })
            | (none, s2) => (straightLineFallback sqrtA start stop, s2)

/-- Does a decide-call outcome carry a REROUTE decision?  (The situation in
which the low-fuel safety override of `_trigger_random_event` does NOT
fire.) -/
def outcomeIsReroute : DecideOutcome → Bool
  | .returned (some d) _ => d.action == "REROUTE"
  | _ => false

/-- Did the provider answer parse as a successful route? -/
def respIsOk : ProviderResp → Bool
  | .ok _ _ _ _ => true
  | _ => false

/-- The truck-physics fields that `_trigger_random_event` never writes:
decision application only ever touches the plan, status, ETA and the
diagnostic histories. -/
def PhysUnchanged (t t1 : TruckState) : Prop :=
  t1.fuel_percent = t.fuel_percent ∧
  t1.capacity_used_percent = t.capacity_used_percent ∧
  t1.location = t.location ∧
  t1.current_node = t.current_node ∧
  t1.wait_time_ticks = t.wait_time_ticks

/-- How decision application may reshape the plan: the status is kept or
set to REROUTING, and `route_nodes` is kept or rebuilt as
`current_node :: rest`. -/
def RouteShape (t t1 : TruckState) : Prop :=
  (t1.status = t.status ∨ t1.status = "REROUTING") ∧
  (t1.route_nodes = t.route_nodes ∨ ∃ l, t1.route_nodes = t.current_node :: l)

/-- The implicit plan invariant: a planned truck has a non-empty
`route_nodes` whose head is its `current_node`. -/
def HeadInv (t : TruckState) : Prop :=
  t.route_nodes ≠ [] ∧ t.route_nodes.head? = some t.current_node

/-- Truck T1 as `Simulation._init_trucks` builds it (fuel and capacity from
the default initial config). -/
def truckT1 : TruckState :=
  { truck_id := "T1", current_node := "HUB_SOUTH", destination_node := "DEST_WEST",
    route_nodes := ["HUB_SOUTH", "J_BYPASS", "DEST_WEST"],
    location := { lat := 18.4466, lng := 73.8567 },
    fuel_percent := 100, capacity_used_percent := 80, status := "EN_ROUTE",
    eta_minutes := 30,
    route_coordinates := resolve_route ["HUB_SOUTH", "J_BYPASS", "DEST_WEST"],
    active_route_id := "R_SW_HWY" }

/-- The reroute Decision of the round-trip scenario: an explicit node list
`["FUEL_A", "DEST_WEST"]`, exactly as the agent prompt instructs for fuel
stops. -/
def fuelStopDecision : AgentDecision :=
  { truck_id := "T1", action := "REROUTE",
    reasoning := "Detour via fuel station", confidence := 0.9,
    impact_new_route_nodes := some ["FUEL_A", "DEST_WEST"] }

/-- Truck T1 with fuel at 18%, the low-fuel scenario state. -/
def lowFuelTruckT1 : TruckState := { truckT1 with fuel_percent := 18 }

/-- A non-committal CONTINUE Decision from the decision source. -/
def continueDecision : AgentDecision :=
  { truck_id := "T1", action := "CONTINUE",
    reasoning := "Holding course.", confidence := 1 }

/-- A truck that has just reached a fuel-station node and entered the
REFUELING wait (status and countdown exactly as `_move_truck` sets them). -/
def refuelingTruck : TruckState :=
  { truck_id := "T1", current_node := "FUEL_A", destination_node := "DEST_WEST",
    route_nodes := ["FUEL_A", "DEST_WEST"],
    location := { lat := 18.5913, lng := 73.7389 },
    fuel_percent := 40, capacity_used_percent := 80, status := "REFUELING",
    wait_time_ticks := 5, eta_minutes := 20,
    alerts := ["Refueling in progress..."],
    route_coordinates := resolve_route ["FUEL_A", "DEST_WEST"],
    active_route_id := "CUSTOM_AI_ROUTE" }

/-- The catalog after the operator toggles `R_SW_HWY` inactive. -/
def blockedRoutes : List (String × Route) := deactivate_route "R_SW_HWY" defaultRoutes

/-- The `R_SW_HWY` entry of `blockedRoutes`. -/
def blockedRSWHWY : Route :=
  { route_id := "R_SW_HWY", origin := "HUB_SOUTH", destination := "DEST_WEST",
    distance_km := 15, base_time_min := 30, fuel_cost := 6, toll_cost := 100,
    congestion_risk := 0.4, is_active := false }

/-- A decision source that answers every event with a REROUTE onto the
catalog route `R_SW_CITY`. -/
def rerouteToCityDecide : String → DecideOutcome := fun _ =>
  .returned (some { truck_id := "T1", action := "REROUTE",
                    reasoning := "Switching to the city route", confidence := 0.8,
                    impact_selected_route_id := some "R_SW_CITY" }) []

/-- A decision source whose calls always raise (the fully degraded case). -/
def raisingDecide : String → DecideOutcome := fun _ => .raised

/-- A placeholder interpolation function for concrete runs (the claims hold
for every `interp`). -/
def holdInterp : Location → Location → Location := fun a _ => a

/-- A provider that always answers successfully with a 1 km / 10 min
route. -/
def okProvider : Nat → ProviderResp := fun _ => .ok 1000 600 "geom" []

/-- A provider that always fails with a network error. -/
def failProvider : Nat → ProviderResp := fun _ => .failed

/-- The module-load state of `routing_engine.py`: empty cache, circuit
closed. -/
def emptyEngineState : EngineState := {}

/-- A REROUTE Decision whose explicit node list names a node id absent from
the catalog. -/
def ghostNodeDecision : AgentDecision :=
  { truck_id := "T1", action := "REROUTE",
    reasoning := "Reroute through a node that does not exist", confidence := 0.5,
    impact_new_route_nodes := some ["GHOST_NODE"] }

/-- A REROUTE Decision that references a route id absent from the catalog
(and carries no explicit node list). -/
def unknownRouteDecision : AgentDecision :=
  { truck_id := "T1", action := "REROUTE",
    reasoning := "Take the phantom route", confidence := 0.5,
    impact_selected_route_id := some "R_UNKNOWN" }

theorem physUnchanged_refl (t : TruckState) : PhysUnchanged t t :=
  ⟨rfl, rfl, rfl, rfl, rfl⟩

theorem physUnchanged_trans {t t1 t2 : TruckState} (h : PhysUnchanged t t1)
    (h2 : PhysUnchanged t1 t2) : PhysUnchanged t t2 := by
  obtain ⟨a1, a2, a3, a4, a5⟩ := h
  obtain ⟨b1, b2, b3, b4, b5⟩ := h2
  exact ⟨b1.trans a1, b2.trans a2, b3.trans a3, b4.trans a4, b5.trans a5⟩

theorem routeShape_refl (t : TruckState) : RouteShape t t := ⟨Or.inl rfl, Or.inl rfl⟩

theorem routeShape_trans {t t1 t2 : TruckState} (hc : t1.current_node = t.current_node)
    (h : RouteShape t t1) (h2 : RouteShape t1 t2) : RouteShape t t2 := by
  obtain ⟨hs, hn⟩ := h
  obtain ⟨hs2, hn2⟩ := h2
  constructor
  · rcases hs2 with h' | h'
    · rw [h']; exact hs
    · exact Or.inr h'
  · rcases hn2 with h' | ⟨l, h'⟩
    · rw [h']; exact hn
    · exact Or.inr ⟨l, by rw [h', hc]⟩

theorem headInv_of_shape {t t1 : TruckState} (h : HeadInv t)
    (hc : t1.current_node = t.current_node) (hs : RouteShape t t1) : HeadInv t1 := by
  obtain ⟨hne, hh⟩ := h
  unfold HeadInv
  rcases hs.2 with h' | ⟨l, h'⟩
  · rw [h', hc]; exact ⟨hne, hh⟩
  · rw [h', hc]; exact ⟨List.cons_ne_nil _ _, rfl⟩

theorem applyRerouteStructure_pres (routes : List (String × Route))
    (d : AgentDecision) (t : TruckState) :
    PhysUnchanged t (applyRerouteStructure routes d t) ∧
    RouteShape t (applyRerouteStructure routes d t) := by
  unfold PhysUnchanged RouteShape applyRerouteStructure
  repeat' split
  all_goals simp

theorem applyRerouteDecision_pres (routes : List (String × Route))
    (d : AgentDecision) (e : String) (t : TruckState) :
    PhysUnchanged t (applyRerouteDecision routes d e t) ∧
    RouteShape t (applyRerouteDecision routes d e t) := by
  obtain ⟨hp, hs, hn⟩ := applyRerouteStructure_pres routes d t
  unfold applyRerouteDecision
  split
  · exact ⟨hp, Or.inr rfl, hn⟩
  · exact ⟨hp, hs, hn⟩

theorem applySafetyOverride_pres (routes : List (String × Route)) (t : TruckState) :
    PhysUnchanged t (applySafetyOverride routes t) ∧
    RouteShape t (applySafetyOverride routes t) := by
  unfold PhysUnchanged RouteShape applySafetyOverride
  repeat' split
  all_goals simp

theorem trigger_random_event_pres (routes : List (String × Route))
    (o : DecideOutcome) (e : String) (t : TruckState) :
    PhysUnchanged t (trigger_random_event routes o e t) ∧
    RouteShape t (trigger_random_event routes o e t) := by
  cases o with
  | raised => exact ⟨physUnchanged_refl t, routeShape_refl t⟩
  | returned dOpt th =>
    have h1 : PhysUnchanged t ({ t with thoughts := th }) ∧
        RouteShape t ({ t with thoughts := th }) :=
      ⟨⟨rfl, rfl, rfl, rfl, rfl⟩, Or.inl rfl, Or.inl rfl⟩
    have hcur : ({ t with thoughts := th } : TruckState).current_node = t.current_node := rfl
    cases dOpt with
    | none =>
        unfold trigger_random_event
        dsimp only
        split
        · obtain ⟨p3, s3⟩ := applySafetyOverride_pres routes ({ t with thoughts := th })
          exact ⟨physUnchanged_trans h1.1 p3, routeShape_trans hcur h1.2 s3⟩
        · exact ⟨h1.1, h1.2⟩
    | some d =>
        unfold trigger_random_event
        dsimp only
        by_cases hd : d.action = "REROUTE"
        · rw [if_pos hd]
          obtain ⟨p2, s2⟩ := applyRerouteDecision_pres routes d e ({ t with thoughts := th })
          have hcur2 : (applyRerouteDecision routes d e ({ t with thoughts := th })).current_node
              = t.current_node := p2.2.2.2.1.trans hcur
          split
          · obtain ⟨p3, s3⟩ := applySafetyOverride_pres routes
              (applyRerouteDecision routes d e ({ t with thoughts := th }))
            refine ⟨physUnchanged_trans (physUnchanged_trans h1.1 p2) p3, ?_⟩
            exact routeShape_trans hcur2 (routeShape_trans hcur h1.2 s2) s3
          · exact ⟨physUnchanged_trans h1.1 p2, routeShape_trans hcur h1.2 s2⟩
        · rw [if_neg hd]
          split
          · obtain ⟨p3, s3⟩ := applySafetyOverride_pres routes ({ t with thoughts := th })
            exact ⟨physUnchanged_trans h1.1 p3, routeShape_trans hcur h1.2 s3⟩
          · exact ⟨h1.1, h1.2⟩

theorem trigger_headInv (routes : List (String × Route)) (o : DecideOutcome)
    (e : String) (t : TruckState) (h : HeadInv t) :
    HeadInv (trigger_random_event routes o e t) := by
  obtain ⟨hp, hs⟩ := trigger_random_event_pres routes o e t
  exact headInv_of_shape h hp.2.2.2.1 hs

theorem popCoord_fields (t : TruckState) :
    (popCoord t).fuel_percent = t.fuel_percent ∧
    (popCoord t).capacity_used_percent = t.capacity_used_percent ∧
    (popCoord t).route_nodes = t.route_nodes ∧
    (popCoord t).current_node = t.current_node ∧
    (popCoord t).status = t.status := by
  unfold popCoord
  split
  all_goals simp

theorem popNode_fields (t : TruckState) :
    (popNode t).fuel_percent = t.fuel_percent ∧
    (popNode t).capacity_used_percent = t.capacity_used_percent ∧
    (popNode t).status = t.status := by
  unfold popNode
  repeat' split
  all_goals simp

theorem popNode_headInv (t : TruckState) (h : HeadInv t) : HeadInv (popNode t) := by
  obtain ⟨hne, hh⟩ := h
  unfold HeadInv popNode
  rcases hx : t.route_nodes with _ | ⟨a, _ | ⟨b, l⟩⟩
  · exact absurd hx hne
  · simp only [hx]
    rw [hx] at hh
    exact ⟨by simp [hx], hh ▸ by simp [hx]⟩
  · simp [hx]

theorem checkArrival_fields (t : TruckState) :
    (checkArrival t).fuel_percent = t.fuel_percent ∧
    (checkArrival t).capacity_used_percent = t.capacity_used_percent ∧
    (checkArrival t).route_nodes = t.route_nodes ∧
    (checkArrival t).current_node = t.current_node := by
  unfold checkArrival
  split
  all_goals simp

theorem checkRefuel_fields (t : TruckState) :
    (checkRefuel t).fuel_percent = t.fuel_percent ∧
    (checkRefuel t).capacity_used_percent = t.capacity_used_percent ∧
    (checkRefuel t).route_nodes = t.route_nodes ∧
    (checkRefuel t).current_node = t.current_node := by
  unfold checkRefuel
  split
  all_goals simp

theorem reachWaypoint_fuel (t0 : TruckState) (target : Location) :
    (reachWaypoint t0 target).fuel_percent = t0.fuel_percent ∧
    (reachWaypoint t0 target).capacity_used_percent = t0.capacity_used_percent := by
  unfold reachWaypoint
  obtain ⟨a1, a2, a3, a4, a5⟩ := popCoord_fields ({ t0 with location := target })
  obtain ⟨b1, b2, b3⟩ := popNode_fields (popCoord { t0 with location := target })
  obtain ⟨c1, c2, c3, c4⟩ := checkArrival_fields (popNode (popCoord { t0 with location := target }))
  obtain ⟨d1, d2, d3, d4⟩ := checkRefuel_fields (checkArrival (popNode (popCoord { t0 with location := target })))
  exact ⟨d1.trans (c1.trans (b1.trans a1)), d2.trans (c2.trans (b2.trans a2))⟩

theorem reachWaypoint_headInv (t0 : TruckState) (target : Location)
    (h : HeadInv t0) : HeadInv (reachWaypoint t0 target) := by
  unfold reachWaypoint
  have h0 : HeadInv ({ t0 with location := target }) := h
  have h1 : HeadInv (popCoord { t0 with location := target }) := by
    obtain ⟨_, _, a3, a4, _⟩ := popCoord_fields ({ t0 with location := target })
    exact ⟨by rw [a3]; exact h0.1, by rw [a3, a4]; exact h0.2⟩
  have h2 := popNode_headInv _ h1
  have h3 : HeadInv (checkArrival (popNode (popCoord { t0 with location := target }))) := by
    obtain ⟨_, _, c3, c4⟩ := checkArrival_fields (popNode (popCoord { t0 with location := target }))
    exact ⟨by rw [c3]; exact h2.1, by rw [c3, c4]; exact h2.2⟩
  obtain ⟨_, _, d3, d4⟩ := checkRefuel_fields (checkArrival (popNode (popCoord { t0 with location := target })))
  exact ⟨by rw [d3]; exact h3.1, by rw [d3, d4]; exact h3.2⟩

theorem applyConsumption_fields (t : TruckState) (hf : 0 ≤ t.fuel_percent)
    (hc : 0 ≤ t.capacity_used_percent) :
    (applyConsumption t).fuel_percent ≤ t.fuel_percent ∧
    0 ≤ (applyConsumption t).fuel_percent := by
  constructor
  · show max 0 (t.fuel_percent - 0.5 * (1 + t.capacity_used_percent / 100)) ≤ t.fuel_percent
    have h100 : (0 : ℚ) ≤ t.capacity_used_percent / 100 := by positivity
    have hcons : (0 : ℚ) ≤ 0.5 * (1 + t.capacity_used_percent / 100) := by nlinarith
    exact max_le hf (by linarith)
  · exact le_max_left _ _

theorem applyLowFuelCheck_pres (routes : List (String × Route))
    (decide : String → DecideOutcome) (t : TruckState) :
    PhysUnchanged t (applyLowFuelCheck routes decide t) ∧
    RouteShape t (applyLowFuelCheck routes decide t) := by
  unfold applyLowFuelCheck
  split
  · exact trigger_random_event_pres routes (decide "LOW_FUEL") "LOW_FUEL" t
  · exact ⟨physUnchanged_refl t, routeShape_refl t⟩

theorem applyEtaTick_fields (t : TruckState) :
    (applyEtaTick t).fuel_percent = t.fuel_percent ∧
    (applyEtaTick t).route_nodes = t.route_nodes ∧
    (applyEtaTick t).current_node = t.current_node ∧
    (applyEtaTick t).status = t.status ∧
    (applyEtaTick t).location = t.location ∧
    (applyEtaTick t).alerts = t.alerts := by
  unfold applyEtaTick
  split
  all_goals simp

theorem postMove_fuel (routes : List (String × Route))
    (decide : String → DecideOutcome) (t1 : TruckState)
    (hf : 0 ≤ t1.fuel_percent) (hc : 0 ≤ t1.capacity_used_percent) :
    (applyEtaTick (applyLowFuelCheck routes decide (applyConsumption t1))).fuel_percent ≤ t1.fuel_percent ∧
    0 ≤ (applyEtaTick (applyLowFuelCheck routes decide (applyConsumption t1))).fuel_percent := by
  obtain ⟨hcons1, hcons2⟩ := applyConsumption_fields t1 hf hc
  obtain ⟨hl, _⟩ := applyLowFuelCheck_pres routes decide (applyConsumption t1)
  obtain ⟨he, _⟩ := applyEtaTick_fields (applyLowFuelCheck routes decide (applyConsumption t1))
  rw [he, hl.1]
  exact ⟨hcons1, hcons2⟩

theorem postMove_headInv (routes : List (String × Route))
    (decide : String → DecideOutcome) (t1 : TruckState) (h : HeadInv t1) :
    HeadInv (applyEtaTick (applyLowFuelCheck routes decide (applyConsumption t1))) := by
  have h2 : HeadInv (applyConsumption t1) := h
  obtain ⟨hl, hls⟩ := applyLowFuelCheck_pres routes decide (applyConsumption t1)
  have h3 := headInv_of_shape h2 hl.2.2.2.1 hls
  obtain ⟨_, e2, e3, _⟩ := applyEtaTick_fields (applyLowFuelCheck routes decide (applyConsumption t1))
  exact ⟨by rw [e2]; exact h3.1, by rw [e2, e3]; exact h3.2⟩

theorem moveTruckCore_fuel (routes : List (String × Route))
    (decide : String → DecideOutcome) (interp : Location → Location → Location)
    (t0 : TruckState) (hf : 0 ≤ t0.fuel_percent) (hc : 0 ≤ t0.capacity_used_percent) :
    (moveTruckCore routes decide interp t0).fuel_percent ≤ t0.fuel_percent ∧
    0 ≤ (moveTruckCore routes decide interp t0).fuel_percent := by
  unfold moveTruckCore
  split
  · exact ⟨le_refl _, hf⟩
  · split
    · exact ⟨le_refl _, hf⟩
    · dsimp only
      split
      case isTrue target _ _ =>
        obtain ⟨hrf, hrc⟩ := reachWaypoint_fuel t0 target
        have := postMove_fuel routes decide (reachWaypoint t0 target) (hrf ▸ hf) (hrc ▸ hc)
        rw [hrf] at this
        exact this
      case isFalse target _ _ =>
        exact postMove_fuel routes decide ({ t0 with location := interp t0.location target }) hf hc

theorem moveTruckCore_headInv (routes : List (String × Route))
    (decide : String → DecideOutcome) (interp : Location → Location → Location)
    (t0 : TruckState) (h : HeadInv t0) :
    HeadInv (moveTruckCore routes decide interp t0) := by
  unfold moveTruckCore
  split
  · exact h
  · split
    · exact h
    · dsimp only
      split
      case isTrue target _ _ =>
        exact postMove_headInv routes decide _ (reachWaypoint_headInv t0 target h)
      case isFalse target _ _ =>
        exact postMove_headInv routes decide _ h

theorem move_truck_fuel (routes : List (String × Route))
    (decide : String → DecideOutcome) (interp : Location → Location → Location)
    (t : TruckState) (hs : t.status ≠ "REFUELING")
    (hf : 0 ≤ t.fuel_percent) (hc : 0 ≤ t.capacity_used_percent) :
    (move_truck routes decide interp t).fuel_percent ≤ t.fuel_percent ∧
    0 ≤ (move_truck routes decide interp t).fuel_percent := by
  unfold move_truck
  rw [if_neg hs]
  exact moveTruckCore_fuel routes decide interp t hf hc

theorem move_truck_headInv (routes : List (String × Route))
    (decide : String → DecideOutcome) (interp : Location → Location → Location)
    (t : TruckState) (h : HeadInv t) : HeadInv (move_truck routes decide interp t) := by
  unfold move_truck
  split
  · split
    · exact h
    · exact moveTruckCore_headInv routes decide interp _ h
  · exact moveTruckCore_headInv routes decide interp t h

theorem tickMovePhase_refueling (routes : List (String × Route))
    (decide : String → DecideOutcome) (interp : Location → Location → Location)
    (t : TruckState) (hs : t.status = "REFUELING") :
    tickMovePhase routes decide interp t = t := by
  unfold tickMovePhase
  rw [hs]
  rw [if_neg (by decide)]

theorem tickMovePhase_fuel (routes : List (String × Route))
    (decide : String → DecideOutcome) (interp : Location → Location → Location)
    (t : TruckState) (hf : 0 ≤ t.fuel_percent) (hc : 0 ≤ t.capacity_used_percent) :
    (tickMovePhase routes decide interp t).fuel_percent ≤ t.fuel_percent ∧
    0 ≤ (tickMovePhase routes decide interp t).fuel_percent := by
  unfold tickMovePhase
  split
  case isTrue hcond =>
    have hsne : t.status ≠ "REFUELING" := by
      rcases hcond with h | h <;> rw [h] <;> decide
    split
    case h_1 r hr =>
      split
      · split
        · obtain ⟨hp, _⟩ := trigger_random_event_pres routes
            (decide "ROAD_CLOSED_BY_DISPATCH") "ROAD_CLOSED_BY_DISPATCH"
            ({ t with alerts := ["Blocked route detected! Requesting AI reroute..."] })
          exact ⟨le_of_eq hp.1, by rw [hp.1]; exact hf⟩
        · exact ⟨le_refl _, hf⟩
      · exact move_truck_fuel routes decide interp t hsne hf hc
    case h_2 =>
      exact move_truck_fuel routes decide interp t hsne hf hc
  case isFalse =>
    exact ⟨le_refl _, hf⟩

theorem tickMovePhase_headInv (routes : List (String × Route))
    (decide : String → DecideOutcome) (interp : Location → Location → Location)
    (t : TruckState) (h : HeadInv t) : HeadInv (tickMovePhase routes decide interp t) := by
  unfold tickMovePhase
  split
  · split
    · split
      · split
        · exact trigger_headInv routes _ _ _ h
        · exact h
      · exact move_truck_headInv routes decide interp t h
    · exact move_truck_headInv routes decide interp t h
  · exact h

theorem trigger_nonreroute (routes : List (String × Route)) (o : DecideOutcome)
    (e : String) (t : TruckState) (ho : outcomeIsReroute o = false)
    (he : e ≠ "LOW_FUEL") :
    (trigger_random_event routes o e t).route_nodes = t.route_nodes ∧
    (trigger_random_event routes o e t).alerts = t.alerts ∧
    (trigger_random_event routes o e t).status = t.status := by
  cases o with
  | raised => exact ⟨rfl, rfl, rfl⟩
  | returned dOpt th =>
    cases dOpt with
    | none =>
      unfold trigger_random_event
      dsimp only
      rw [if_neg (by simp [he])]
      exact ⟨rfl, rfl, rfl⟩
    | some d =>
      have hd : d.action ≠ "REROUTE" := by
        unfold outcomeIsReroute at ho
        simpa using ho
      unfold trigger_random_event
      dsimp only
      rw [if_neg hd, if_neg (by simp [he])]
      exact ⟨rfl, rfl, rfl⟩

theorem get_route_eps (provider : Nat → ProviderResp) (sqrtA : ℚ → ℚ) (now : ℚ)
    (s : EngineState) (start stop : ℚ × ℚ)
    (h1 : |start.1 - stop.1| < 0.0001) (h2 : |start.2 - stop.2| < 0.0001) :
    get_route provider sqrtA now s start stop = (zeroRouteResult start, s) := by
  unfold get_route
  rw [if_pos ⟨h1, h2⟩]

theorem osrm_cooldown_pres (now : ℚ) (s s1 : EngineState)
    (h : osrm_cooldown now s = some s1) :
    s1.route_cache = s.route_cache ∧ s1.osrm_calls = s.osrm_calls := by
  unfold osrm_cooldown at h
  split at h
  · split at h
    · exact absurd h (by simp)
    · rw [Option.some_inj] at h
      subst h
      exact ⟨rfl, rfl⟩
  · rw [Option.some_inj] at h
    subst h
    exact ⟨rfl, rfl⟩

theorem osrm_cooldown_open_fail (now : ℚ) (s : EngineState)
    (ho : s.circuit_open = true) (ht : now < s.circuit_reset_time) :
    osrm_cooldown now s = none := by
  unfold osrm_cooldown
  rw [ho]
  simp [ht]

theorem osrm_cooldown_closed (now : ℚ) (s : EngineState)
    (ho : s.circuit_open = false) :
    osrm_cooldown now s = some { s with last_osrm_call := now } := by
  unfold osrm_cooldown
  rw [ho]
  simp

theorem osrm_cooldown_reset (now : ℚ) (s : EngineState)
    (ho : s.circuit_open = true) (ht : s.circuit_reset_time ≤ now) :
    osrm_cooldown now s = some { s with circuit_open := false, last_osrm_call := now } := by
  unfold osrm_cooldown
  rw [ho]
  simp [not_lt.mpr ht]

theorem osrmAttempt_open_fail (provider : Nat → ProviderResp) (now : ℚ) (s : EngineState)
    (ho : s.circuit_open = true) (ht : now < s.circuit_reset_time) :
    osrmAttempt provider now s = (none, s) := by
  unfold osrmAttempt
  rw [osrm_cooldown_open_fail now s ho ht]

theorem osrmAttempt_closed_ok (provider : Nat → ProviderResp) (now : ℚ) (s : EngineState)
    (dm ds : ℚ) (g : String) (dec : List (ℚ × ℚ))
    (ho : s.circuit_open = false) (hprov : provider s.osrm_calls = .ok dm ds g dec) :
    osrmAttempt provider now s =
      (some { distance_km := dm / 1000, duration_min := ds / 60,
              geometry := g, coordinates := dec },
       { s with last_osrm_call := now, osrm_calls := s.osrm_calls + 1 }) := by
  unfold osrmAttempt
  rw [osrm_cooldown_closed now s ho]
  dsimp only
  rw [hprov]

theorem osrmAttempt_closed_429 (provider : Nat → ProviderResp) (now : ℚ) (s : EngineState)
    (ho : s.circuit_open = false) (hprov : provider s.osrm_calls = .rateLimited) :
    osrmAttempt provider now s =
      (none, { s with circuit_open := true, circuit_reset_time := now + 300,
                      last_osrm_call := now, osrm_calls := s.osrm_calls + 1 }) := by
  unfold osrmAttempt
  rw [osrm_cooldown_closed now s ho]
  dsimp only
  rw [hprov]
  rfl

theorem osrmAttempt_no_ok (provider : Nat → ProviderResp) (now : ℚ) (s : EngineState)
    (hfail : ∀ n, respIsOk (provider n) = false) :
    (osrmAttempt provider now s).1 = none ∧
    (osrmAttempt provider now s).2.route_cache = s.route_cache := by
  unfold osrmAttempt
  rcases hcd : osrm_cooldown now s with _ | s1
  · exact ⟨rfl, rfl⟩
  · obtain ⟨hcache, _⟩ := osrm_cooldown_pres now s s1 hcd
    dsimp only
    cases hresp : provider s1.osrm_calls with
    | ok dm ds g dec =>
        have hc2 := hfail s1.osrm_calls
        rw [hresp] at hc2
        exact absurd hc2 (by simp [respIsOk])
    | notOk => exact ⟨rfl, hcache⟩
    | rateLimited => exact ⟨rfl, hcache⟩
    | failed => exact ⟨rfl, hcache⟩

theorem osrmAttempt_calls_mono (provider : Nat → ProviderResp) (now : ℚ) (s : EngineState) :
    s.osrm_calls ≤ (osrmAttempt provider now s).2.osrm_calls := by
  unfold osrmAttempt
  rcases hcd : osrm_cooldown now s with _ | s1
  · exact le_refl _
  · obtain ⟨_, hcalls⟩ := osrm_cooldown_pres now s s1 hcd
    dsimp only
    cases hresp : provider s1.osrm_calls with
    | ok dm ds g dec => simp [← hcalls]
    | notOk => simp [← hcalls]
    | rateLimited => simp [open_osrm_circuit, ← hcalls]
    | failed => simp [← hcalls]

theorem cacheGet_insert (c : List (String × RouteResult)) (k : String) (v : RouteResult) :
    cacheGet (cacheInsert c k v) k = some v := by
  simp [cacheGet, cacheInsert]

theorem get_route_miss (provider : Nat → ProviderResp) (sqrtA : ℚ → ℚ) (now : ℚ)
    (s : EngineState) (start stop : ℚ × ℚ)
    (heps : ¬(|start.1 - stop.1| < 0.0001 ∧ |start.2 - stop.2| < 0.0001))
    (hkey : cacheGet s.route_cache (routeCacheKey start stop) = none) :
    get_route provider sqrtA now s start stop =
      (match osrmAttempt provider now s with
       | (some r, s1) =>
           (r, { s1 with route_cache := cacheInsert s1.route_cache (routeCacheKey start stop) r })
       | (none, s1) =>
           match osrmAttempt provider now s1 with
           | (some r, s2) =>
               (r, { s2 with route_cache := cacheInsert s2.route_cache (routeCacheKey start stop) r })
           | (none, s2) => (straightLineFallback sqrtA start stop, s2)) := by
  unfold get_route
  rw [if_neg heps]
  dsimp only
  rw [hkey]

theorem osrmAttempt_calls_after_reset (provider : Nat → ProviderResp) (now : ℚ)
    (s : EngineState) (ho : s.circuit_open = true) (ht : s.circuit_reset_time ≤ now) :
    (osrmAttempt provider now s).2.osrm_calls = s.osrm_calls + 1 := by
  unfold osrmAttempt
  rw [osrm_cooldown_reset now s ho ht]
  dsimp only
  cases hresp : provider s.osrm_calls with
  | ok dm ds g dec => rfl
  | notOk => rfl
  | rateLimited => rfl
  | failed => rfl

/-- C1: for the spec round-trip scenario — a REROUTE Decision with explicit
node list `["FUEL_A", "DEST_WEST"]` applied to a truck at `HUB_SOUTH` — the
code produces `route_nodes = ["HUB_SOUTH", "FUEL_A", "DEST_WEST"]` as
claimed, but `route_coordinates` has only 2 entries against 3 route nodes:
`FUEL_A` is absent from `LOCATIONS_COORDS` (no catalog key contains
`"FUEL"`), and `resolve_route` silently drops it, so the claimed length
equality `len(route_coordinates) == len(route_nodes)` fails at exactly the
spec scenario.  This contradicts the agent prompt of the same code base,
which lists `FUEL_A`/`FUEL_B` as valid location ids. -/
theorem c1_fuel_station_reroute_breaks_length_invariant :
    (trigger_random_event defaultRoutes (.returned (some fuelStopDecision) [])
        "TRAFFIC_JAM" truckT1).route_nodes = ["HUB_SOUTH", "FUEL_A", "DEST_WEST"] ∧
    (trigger_random_event defaultRoutes (.returned (some fuelStopDecision) [])
        "TRAFFIC_JAM" truckT1).route_nodes.length = 3 ∧
    (trigger_random_event defaultRoutes (.returned (some fuelStopDecision) [])
        "TRAFFIC_JAM" truckT1).route_coordinates.length = 2 ∧
    (trigger_random_event defaultRoutes (.returned (some fuelStopDecision) [])
        "TRAFFIC_JAM" truckT1).route_coordinates.length ≠
      (trigger_random_event defaultRoutes (.returned (some fuelStopDecision) [])
        "TRAFFIC_JAM" truckT1).route_nodes.length :=
  ⟨rfl, rfl, rfl, by decide⟩

/-- C2: when a LOW_FUEL event gets a CONTINUE Decision, the safety override
does invoke `_heuristic_fallback`, but that fallback takes `min` over the
FUEL-prefixed entries of `LOCATIONS_COORDS` — an empty set, so Python
raises `ValueError` (modelled as `none`); the exception is swallowed by the
event-boundary `except`, and the truck ends the event handling NOT
rerouted: same route, same EN_ROUTE status, same alerts.  The claimed
unconditional REROUTE toward a fuel-station node never happens. -/
theorem c2_low_fuel_safety_override_crashes :
    heuristic_fallback defaultRoutes lowFuelTruckT1 "LOW_FUEL"
      "Safety override: Fuel critical." = none ∧
    (trigger_random_event defaultRoutes (.returned (some continueDecision) ["step"])
        "LOW_FUEL" lowFuelTruckT1).route_nodes = lowFuelTruckT1.route_nodes ∧
    (trigger_random_event defaultRoutes (.returned (some continueDecision) ["step"])
        "LOW_FUEL" lowFuelTruckT1).status = "EN_ROUTE" ∧
    (trigger_random_event defaultRoutes (.returned (some continueDecision) ["step"])
        "LOW_FUEL" lowFuelTruckT1).active_route_id = lowFuelTruckT1.active_route_id ∧
    (trigger_random_event defaultRoutes (.returned (some continueDecision) ["step"])
        "LOW_FUEL" lowFuelTruckT1).alerts = lowFuelTruckT1.alerts :=
  ⟨rfl, rfl, rfl, rfl, rfl⟩

/-- C3: across one tick of the simulation — any catalog, any decision
source, any interpolation, any random-event draw — a truck's fuel never
increases and never becomes negative; and if the tick did move a truck from
REFUELING to EN_ROUTE its fuel would be exactly 100 (under the tick loop
this transition in fact never occurs, which makes that clause hold
vacuously). -/
theorem c3_fuel_nonincreasing_per_tick (routes : List (String × Route))
    (decide : String → DecideOutcome) (interp : Location → Location → Location)
    (randomEvent : Option String) (t : TruckState)
    (hf : 0 ≤ t.fuel_percent) (hc : 0 ≤ t.capacity_used_percent) :
    ((tick_truck routes decide interp randomEvent t).fuel_percent ≤ t.fuel_percent ∧
     0 ≤ (tick_truck routes decide interp randomEvent t).fuel_percent) ∧
    (t.status = "REFUELING" →
      (tick_truck routes decide interp randomEvent t).status = "EN_ROUTE" →
      (tick_truck routes decide interp randomEvent t).fuel_percent = 100) := by
  obtain ⟨h1, h2⟩ := tickMovePhase_fuel routes decide interp t hf hc
  cases randomEvent with
  | none =>
    have hde : tick_truck routes decide interp none t = tickMovePhase routes decide interp t := rfl
    rw [hde]
    refine ⟨⟨h1, h2⟩, ?_⟩
    intro hrf hen
    rw [tickMovePhase_refueling routes decide interp t hrf, hrf] at hen
    exact absurd hen (by decide)
  | some ev =>
    have hde : tick_truck routes decide interp (some ev) t
        = trigger_random_event routes (decide ev) ev (tickMovePhase routes decide interp t) := rfl
    obtain ⟨hp, hs⟩ := trigger_random_event_pres routes (decide ev) ev
      (tickMovePhase routes decide interp t)
    rw [hde]
    constructor
    · exact ⟨hp.1.le.trans h1, by rw [hp.1]; exact h2⟩
    · intro hrf hen
      have hbase := tickMovePhase_refueling routes decide interp t hrf
      rw [hbase] at hs
      rw [hbase] at hen
      rcases hs.1 with h1s | h1s
      · rw [hen, hrf] at h1s
        exact absurd h1s (by decide)
      · rw [hen] at h1s
        exact absurd h1s (by decide)

/-- Witness for C3 at truck T1 on the default catalog with a raising
decision source and no random event. -/
theorem c3_fuel_nonincreasing_per_tick_witness :
    (0 : ℚ) ≤ truckT1.fuel_percent ∧ (0 : ℚ) ≤ truckT1.capacity_used_percent ∧
    (((tick_truck defaultRoutes raisingDecide holdInterp none truckT1).fuel_percent
        ≤ truckT1.fuel_percent ∧
      0 ≤ (tick_truck defaultRoutes raisingDecide holdInterp none truckT1).fuel_percent) ∧
     (truckT1.status = "REFUELING" →
       (tick_truck defaultRoutes raisingDecide holdInterp none truckT1).status = "EN_ROUTE" →
       (tick_truck defaultRoutes raisingDecide holdInterp none truckT1).fuel_percent = 100)) :=
  ⟨by norm_num [truckT1], by norm_num [truckT1],
   c3_fuel_nonincreasing_per_tick defaultRoutes raisingDecide holdInterp none truckT1
     (by norm_num [truckT1]) (by norm_num [truckT1])⟩

/-- C4: a truck that has entered the REFUELING wait is never moved again by
the tick loop, because `Simulation.tick` only calls `_move_truck` for
trucks whose status is EN_ROUTE or REROUTING.  Six ticks leave the truck
bit-for-bit unchanged — still REFUELING, `wait_time_ticks` still 5, fuel
still 40 — so the claimed countdown, the fuel reset to 100 and the return
to EN_ROUTE never happen.  The countdown logic does exist in `_move_truck`
(a direct call decrements the wait), but it is unreachable from the tick
loop. -/
theorem c4_refueling_truck_frozen :
    Nat.iterate (tick_truck defaultRoutes raisingDecide holdInterp none) 6 refuelingTruck
      = refuelingTruck ∧
    refuelingTruck.status = "REFUELING" ∧
    refuelingTruck.wait_time_ticks = 5 ∧
    refuelingTruck.fuel_percent = 40 ∧
    (move_truck defaultRoutes raisingDecide holdInterp refuelingTruck).wait_time_ticks = 4 :=
  ⟨rfl, rfl, rfl, rfl, rfl⟩

/-- C5: when both coordinates of the two endpoints differ by less than
1e-4 degrees, `get_route` returns the zero-cost result and leaves the
engine state — cache, circuit and the provider-invocation counter —
untouched: no provider call is made. -/
theorem c5_identical_points_short_circuit (provider : Nat → ProviderResp)
    (sqrtA : ℚ → ℚ) (now : ℚ) (s : EngineState) (start stop : ℚ × ℚ)
    (h1 : |start.1 - stop.1| < 0.0001) (h2 : |start.2 - stop.2| < 0.0001) :
    (get_route provider sqrtA now s start stop).1.distance_km = 0 ∧
    (get_route provider sqrtA now s start stop).1.duration_min = 0 ∧
    (get_route provider sqrtA now s start stop).2 = s := by
  rw [get_route_eps provider sqrtA now s start stop h1 h2]
  exact ⟨rfl, rfl, rfl⟩

/-- Witness for C5 at a concrete identical coordinate pair. -/
theorem c5_identical_points_short_circuit_witness :
    |(1.5 : ℚ) - 1.5| < 0.0001 ∧ |(2.5 : ℚ) - 2.5| < 0.0001 ∧
    ((get_route failProvider id 0 emptyEngineState ((1.5 : ℚ), (2.5 : ℚ))
        ((1.5 : ℚ), (2.5 : ℚ))).1.distance_km = 0 ∧
     (get_route failProvider id 0 emptyEngineState ((1.5 : ℚ), (2.5 : ℚ))
        ((1.5 : ℚ), (2.5 : ℚ))).1.duration_min = 0 ∧
     (get_route failProvider id 0 emptyEngineState ((1.5 : ℚ), (2.5 : ℚ))
        ((1.5 : ℚ), (2.5 : ℚ))).2 = emptyEngineState) :=
  ⟨by norm_num, by norm_num,
   c5_identical_points_short_circuit failProvider id 0 emptyEngineState _ _
     (by norm_num) (by norm_num)⟩

/-- C6 counterexample: with `R_SW_HWY` flagged inactive, the very tick that
detects the blocked route already replaces `route_nodes` when the raised
ROAD_CLOSED event's decision reroutes the truck (here onto the catalog
route `R_SW_CITY`): `route_nodes` changes from
`["HUB_SOUTH", "J_BYPASS", "DEST_WEST"]` to
`["HUB_SOUTH", "J_CENTRAL", "DEST_WEST"]`, so the claim that `route_nodes`
is left unchanged is false as stated. -/
theorem c6_counterexample_blocked_tick_changes_route_nodes :
    (tick_truck blockedRoutes rerouteToCityDecide holdInterp none truckT1).route_nodes
      ≠ truckT1.route_nodes ∧
    (tick_truck blockedRoutes rerouteToCityDecide holdInterp none truckT1).route_nodes
      = ["HUB_SOUTH", "J_CENTRAL", "DEST_WEST"] ∧
    truckT1.route_nodes = ["HUB_SOUTH", "J_BYPASS", "DEST_WEST"] ∧
    routesGet blockedRoutes truckT1.active_route_id = some blockedRSWHWY ∧
    blockedRSWHWY.is_active = false :=
  ⟨by decide, rfl, rfl, rfl, rfl⟩

/-- C6 amended: a truck (EN_ROUTE or REROUTING) whose `active_route_id`
references a catalog route flagged inactive never advances on the next
tick: `location` and `current_node` are unchanged for every decision
outcome.  While a `Blocked route detected` alert is already pending, the
event is not re-raised and the truck is left entirely unchanged
(deduplication).  When no such alert is pending and the raised
ROAD_CLOSED_BY_DISPATCH event's decision is not a REROUTE, `route_nodes`
and status are also unchanged and the blocking alert is recorded;
`route_nodes` may change only through a reroute decision applied in
response to the raised event.  (Stated for ticks without a random event
draw; the random event never moves a truck either.) -/
theorem c6_blocked_route_holds_position (routes : List (String × Route))
    (decide : String → DecideOutcome) (interp : Location → Location → Location)
    (t : TruckState) (r : Route)
    (hstat : t.status = "EN_ROUTE" ∨ t.status = "REROUTING")
    (hro : routesGet routes t.active_route_id = some r)
    (hinact : r.is_active = false) :
    ((tick_truck routes decide interp none t).location = t.location ∧
     (tick_truck routes decide interp none t).current_node = t.current_node) ∧
    ((t.alerts.any (fun a => strContains a "Blocked route detected")) = true →
      tick_truck routes decide interp none t = t) ∧
    ((t.alerts.any (fun a => strContains a "Blocked route detected")) = false →
      outcomeIsReroute (decide "ROAD_CLOSED_BY_DISPATCH") = false →
      (tick_truck routes decide interp none t).route_nodes = t.route_nodes ∧
      (tick_truck routes decide interp none t).status = t.status ∧
      (tick_truck routes decide interp none t).alerts
        = ["Blocked route detected! Requesting AI reroute..."]) := by
  have hde : tick_truck routes decide interp none t = tickMovePhase routes decide interp t := rfl
  rw [hde]
  unfold tickMovePhase
  rw [if_pos hstat, hro]
  dsimp only
  rw [if_pos hinact]
  by_cases hpend : (t.alerts.any (fun a => strContains a "Blocked route detected")) = false
  · rw [if_pos hpend]
    obtain ⟨hp, hs⟩ := trigger_random_event_pres routes (decide "ROAD_CLOSED_BY_DISPATCH")
      "ROAD_CLOSED_BY_DISPATCH"
      ({ t with alerts := ["Blocked route detected! Requesting AI reroute..."] })
    refine ⟨⟨hp.2.2.1, hp.2.2.2.1⟩, ?_, ?_⟩
    · intro hcontra
      rw [hcontra] at hpend
      exact absurd hpend (by decide)
    · intro _ hor
      obtain ⟨hn, ha, hst⟩ := trigger_nonreroute routes (decide "ROAD_CLOSED_BY_DISPATCH")
        "ROAD_CLOSED_BY_DISPATCH"
        ({ t with alerts := ["Blocked route detected! Requesting AI reroute..."] })
        hor (by decide)
      exact ⟨hn, hst, ha⟩
  · rw [if_neg hpend]
    refine ⟨⟨rfl, rfl⟩, fun _ => rfl, ?_⟩
    intro hfalse _
    exact absurd hfalse hpend

/-- Witness for the amended C6 at truck T1 on the catalog with `R_SW_HWY`
deactivated and a raising decision source. -/
theorem c6_blocked_route_holds_position_witness :
    (truckT1.status = "EN_ROUTE" ∨ truckT1.status = "REROUTING") ∧
    routesGet blockedRoutes truckT1.active_route_id = some blockedRSWHWY ∧
    blockedRSWHWY.is_active = false ∧
    (((tick_truck blockedRoutes raisingDecide holdInterp none truckT1).location
        = truckT1.location ∧
      (tick_truck blockedRoutes raisingDecide holdInterp none truckT1).current_node
        = truckT1.current_node) ∧
     ((truckT1.alerts.any (fun a => strContains a "Blocked route detected")) = true →
       tick_truck blockedRoutes raisingDecide holdInterp none truckT1 = truckT1) ∧
     ((truckT1.alerts.any (fun a => strContains a "Blocked route detected")) = false →
       outcomeIsReroute (raisingDecide "ROAD_CLOSED_BY_DISPATCH") = false →
       (tick_truck blockedRoutes raisingDecide holdInterp none truckT1).route_nodes
         = truckT1.route_nodes ∧
       (tick_truck blockedRoutes raisingDecide holdInterp none truckT1).status
         = truckT1.status ∧
       (tick_truck blockedRoutes raisingDecide holdInterp none truckT1).alerts
         = ["Blocked route detected! Requesting AI reroute..."])) :=
  ⟨Or.inl rfl, rfl, rfl,
   c6_blocked_route_holds_position blockedRoutes raisingDecide holdInterp truckT1
     blockedRSWHWY (Or.inl rfl) rfl rfl⟩

/-- C7: the circuit breaker around the routing provider.  (a)
`_open_osrm_circuit` opens the circuit with a reset time exactly 300
seconds (5 minutes) ahead.  (b) While the circuit is open and the current
time is before the reset time, `get_route` returns the straight-line
fallback with the engine state — in particular the invocation counter —
completely untouched: the provider is not contacted.  (c) Once the reset
time has passed, the next call closes the circuit and does contact the
provider (the invocation counter strictly increases).  (d) When the
provider answers a call with HTTP 429, the circuit opens for `now + 300`,
the second retry attempt fails fast, and the caller gets the fallback. -/
theorem c7_rate_limit_circuit_breaker (provider : Nat → ProviderResp)
    (sqrtA : ℚ → ℚ) (now : ℚ) (s : EngineState) (start stop : ℚ × ℚ)
    (heps : ¬(|start.1 - stop.1| < 0.0001 ∧ |start.2 - stop.2| < 0.0001))
    (hkey : cacheGet s.route_cache (routeCacheKey start stop) = none) :
    ((open_osrm_circuit now s).circuit_open = true ∧
     (open_osrm_circuit now s).circuit_reset_time = now + 300) ∧
    (s.circuit_open = true → now < s.circuit_reset_time →
      get_route provider sqrtA now s start stop = (straightLineFallback sqrtA start stop, s)) ∧
    (s.circuit_open = true → s.circuit_reset_time ≤ now →
      s.osrm_calls < (get_route provider sqrtA now s start stop).2.osrm_calls) ∧
    (s.circuit_open = false → provider s.osrm_calls = .rateLimited →
      get_route provider sqrtA now s start stop =
        (straightLineFallback sqrtA start stop,
         { s with circuit_open := true, circuit_reset_time := now + 300,
                  last_osrm_call := now, osrm_calls := s.osrm_calls + 1 })) := by
  refine ⟨⟨rfl, rfl⟩, ?_, ?_, ?_⟩
  · intro ho ht
    rw [get_route_miss provider sqrtA now s start stop heps hkey,
        osrmAttempt_open_fail provider now s ho ht]
    dsimp only
    rw [osrmAttempt_open_fail provider now s ho ht]
  · intro ho ht
    rw [get_route_miss provider sqrtA now s start stop heps hkey]
    have hm := osrmAttempt_calls_after_reset provider now s ho ht
    rcases ha1 : osrmAttempt provider now s with ⟨r1, s1⟩
    rw [ha1] at hm
    cases r1 with
    | some r =>
        dsimp only at hm ⊢
        omega
    | none =>
        dsimp only at hm ⊢
        have hmono := osrmAttempt_calls_mono provider now s1
        rcases ha2 : osrmAttempt provider now s1 with ⟨r2, s2⟩
        rw [ha2] at hmono
        cases r2 with
        | some r => dsimp only at hmono ⊢; omega
        | none => dsimp only at hmono ⊢; omega
  · intro ho hprov
    rw [get_route_miss provider sqrtA now s start stop heps hkey,
        osrmAttempt_closed_429 provider now s ho hprov]
    dsimp only
    rw [osrmAttempt_open_fail provider now _ rfl (by dsimp only; linarith)]

/-- Witness for C7 at a concrete distinct coordinate pair on the
module-load engine state. -/
theorem c7_rate_limit_circuit_breaker_witness :
    ¬(|(1 : ℚ) - 2| < 0.0001 ∧ |(1 : ℚ) - 2| < 0.0001) ∧
    cacheGet emptyEngineState.route_cache (routeCacheKey ((1 : ℚ), (1 : ℚ)) ((2 : ℚ), (2 : ℚ))) = none ∧
    (((open_osrm_circuit 7 emptyEngineState).circuit_open = true ∧
      (open_osrm_circuit 7 emptyEngineState).circuit_reset_time = 7 + 300) ∧
     (emptyEngineState.circuit_open = true → (7 : ℚ) < emptyEngineState.circuit_reset_time →
       get_route okProvider id 7 emptyEngineState ((1 : ℚ), (1 : ℚ)) ((2 : ℚ), (2 : ℚ))
         = (straightLineFallback id ((1 : ℚ), (1 : ℚ)) ((2 : ℚ), (2 : ℚ)), emptyEngineState)) ∧
     (emptyEngineState.circuit_open = true → emptyEngineState.circuit_reset_time ≤ (7 : ℚ) →
       emptyEngineState.osrm_calls
         < (get_route okProvider id 7 emptyEngineState ((1 : ℚ), (1 : ℚ)) ((2 : ℚ), (2 : ℚ))).2.osrm_calls) ∧
     (emptyEngineState.circuit_open = false →
       okProvider emptyEngineState.osrm_calls = .rateLimited →
       get_route okProvider id 7 emptyEngineState ((1 : ℚ), (1 : ℚ)) ((2 : ℚ), (2 : ℚ)) =
         (straightLineFallback id ((1 : ℚ), (1 : ℚ)) ((2 : ℚ), (2 : ℚ)),
          { emptyEngineState with circuit_open := true, circuit_reset_time := (7 : ℚ) + 300,
                                  last_osrm_call := 7,
                                  osrm_calls := emptyEngineState.osrm_calls + 1 }))) :=
  ⟨by norm_num, rfl,
   c7_rate_limit_circuit_breaker okProvider id 7 emptyEngineState ((1 : ℚ), (1 : ℚ))
     ((2 : ℚ), (2 : ℚ)) (by norm_num) rfl⟩

/-- C8 counterexample: for the rounded coordinate pair whose two endpoints
are the same point, two calls to `get_route` make ZERO provider
invocations, not exactly one: the epsilon short-circuit answers before the
cache or the provider is ever consulted, even with a provider that would
answer successfully. -/
theorem c8_counterexample_identical_pair_zero_invocations :
    (get_route okProvider id 0 emptyEngineState ((0 : ℚ), (0 : ℚ))
        ((0 : ℚ), (0 : ℚ))).2.osrm_calls = 0 ∧
    (get_route okProvider id 0
        (get_route okProvider id 0 emptyEngineState ((0 : ℚ), (0 : ℚ))
          ((0 : ℚ), (0 : ℚ))).2
        ((0 : ℚ), (0 : ℚ)) ((0 : ℚ), (0 : ℚ))).2.osrm_calls = 0 ∧
    (0 : Nat) ≠ 1 := by
  have h := get_route_eps okProvider id 0 emptyEngineState ((0 : ℚ), (0 : ℚ))
    ((0 : ℚ), (0 : ℚ)) (by norm_num) (by norm_num)
  rw [h]
  rw [get_route_eps okProvider id 0 _ ((0 : ℚ), (0 : ℚ)) ((0 : ℚ), (0 : ℚ))
    (by norm_num) (by norm_num)]
  exact ⟨rfl, rfl, by decide⟩

/-- C8 amended: for a rounded coordinate pair whose endpoints are at least
1e-4 apart (so the provider path is reachable), with the key not cached
and the circuit closed, and the provider answering the attempt
successfully: the first `get_route` call makes exactly one provider
invocation and populates the cache with its answer; a second call for the
same pair — under any provider and any time — returns the cached answer
with the state (and so the invocation counter) unchanged, for a total of
exactly one invocation; and with a provider that never answers
successfully, the fallback path leaves the cache untouched. -/
theorem c8_cached_pair_single_invocation (provider : Nat → ProviderResp)
    (sqrtA : ℚ → ℚ) (now : ℚ) (s : EngineState) (start stop : ℚ × ℚ)
    (dm ds : ℚ) (g : String) (dec : List (ℚ × ℚ))
    (heps : ¬(|start.1 - stop.1| < 0.0001 ∧ |start.2 - stop.2| < 0.0001))
    (hkey : cacheGet s.route_cache (routeCacheKey start stop) = none)
    (hclosed : s.circuit_open = false)
    (hprov : provider s.osrm_calls = .ok dm ds g dec) :
    (get_route provider sqrtA now s start stop).2.osrm_calls = s.osrm_calls + 1 ∧
    (∀ provider2 sqrtA2 now2,
       get_route provider2 sqrtA2 now2 (get_route provider sqrtA now s start stop).2 start stop
         = ((get_route provider sqrtA now s start stop).1,
            (get_route provider sqrtA now s start stop).2)) ∧
    (∀ provider3 now3, (∀ n, respIsOk (provider3 n) = false) →
       (get_route provider3 sqrtA now3 s start stop).2.route_cache = s.route_cache) := by
  have hroute : get_route provider sqrtA now s start stop =
      ({ distance_km := dm / 1000, duration_min := ds / 60,
         geometry := g, coordinates := dec },
       { s with last_osrm_call := now, osrm_calls := s.osrm_calls + 1,
                route_cache := cacheInsert s.route_cache (routeCacheKey start stop)
                  { distance_km := dm / 1000, duration_min := ds / 60,
                    geometry := g, coordinates := dec } }) := by
    rw [get_route_miss provider sqrtA now s start stop heps hkey,
        osrmAttempt_closed_ok provider now s dm ds g dec hclosed hprov]
  refine ⟨?_, ?_, ?_⟩
  · rw [hroute]
  · intro provider2 sqrtA2 now2
    rw [hroute]
    unfold get_route
    rw [if_neg heps]
    dsimp only
    rw [cacheGet_insert]
  · intro provider3 now3 hfail
    rw [get_route_miss provider3 sqrtA now3 s start stop heps hkey]
    obtain ⟨ha1, hc1⟩ := osrmAttempt_no_ok provider3 now3 s hfail
    rcases h1 : osrmAttempt provider3 now3 s with ⟨r1, s1⟩
    rw [h1] at ha1 hc1
    dsimp only at ha1 hc1
    subst ha1
    dsimp only
    obtain ⟨ha2, hc2⟩ := osrmAttempt_no_ok provider3 now3 s1 hfail
    rcases h2 : osrmAttempt provider3 now3 s1 with ⟨r2, s2⟩
    rw [h2] at ha2 hc2
    dsimp only at ha2 hc2
    subst ha2
    dsimp only
    rw [hc2, hc1]

/-- Witness for the amended C8 at a concrete distinct pair with the
always-successful provider. -/
theorem c8_cached_pair_single_invocation_witness :
    ¬(|(1 : ℚ) - 2| < 0.0001 ∧ |(1 : ℚ) - 2| < 0.0001) ∧
    cacheGet emptyEngineState.route_cache (routeCacheKey ((1 : ℚ), (1 : ℚ)) ((2 : ℚ), (2 : ℚ))) = none ∧
    emptyEngineState.circuit_open = false ∧
    okProvider emptyEngineState.osrm_calls = .ok 1000 600 "geom" [] ∧
    ((get_route okProvider id 0 emptyEngineState ((1 : ℚ), (1 : ℚ)) ((2 : ℚ), (2 : ℚ))).2.osrm_calls
        = emptyEngineState.osrm_calls + 1 ∧
     (∀ provider2 sqrtA2 now2,
        get_route provider2 sqrtA2 now2
            (get_route okProvider id 0 emptyEngineState ((1 : ℚ), (1 : ℚ)) ((2 : ℚ), (2 : ℚ))).2
            ((1 : ℚ), (1 : ℚ)) ((2 : ℚ), (2 : ℚ))
          = ((get_route okProvider id 0 emptyEngineState ((1 : ℚ), (1 : ℚ)) ((2 : ℚ), (2 : ℚ))).1,
             (get_route okProvider id 0 emptyEngineState ((1 : ℚ), (1 : ℚ)) ((2 : ℚ), (2 : ℚ))).2)) ∧
     (∀ provider3 now3, (∀ n, respIsOk (provider3 n) = false) →
        (get_route provider3 id now3 emptyEngineState ((1 : ℚ), (1 : ℚ)) ((2 : ℚ), (2 : ℚ))).2.route_cache
          = emptyEngineState.route_cache)) :=
  ⟨by norm_num, rfl, rfl, rfl,
   c8_cached_pair_single_invocation okProvider id 0 emptyEngineState ((1 : ℚ), (1 : ℚ))
     ((2 : ℚ), (2 : ℚ)) 1000 600 "geom" [] (by norm_num) rfl rfl rfl⟩

/-- C9 counterexample: a REROUTE Decision whose explicit node list names
`GHOST_NODE`, an id absent from the catalog, is NOT treated as a no-op:
the code applies it, replacing `route_nodes` with
`["HUB_SOUTH", "GHOST_NODE"]`, while `resolve_route` silently drops the
unknown node so `route_coordinates` keeps a single entry — a partial
reroute, exactly what the claim says must not happen. -/
theorem c9_counterexample_unknown_node_list_applied :
    (trigger_random_event defaultRoutes (.returned (some ghostNodeDecision) [])
        "TRAFFIC_JAM" truckT1).route_nodes = ["HUB_SOUTH", "GHOST_NODE"] ∧
    (trigger_random_event defaultRoutes (.returned (some ghostNodeDecision) [])
        "TRAFFIC_JAM" truckT1).route_nodes ≠ truckT1.route_nodes ∧
    (trigger_random_event defaultRoutes (.returned (some ghostNodeDecision) [])
        "TRAFFIC_JAM" truckT1).route_coordinates.length = 1 :=
  ⟨rfl, by decide, rfl⟩

/-- C9 amended: a REROUTE Decision whose impact references a catalog route
id not present in `ROUTE_PATHS` (or an empty id) and carries no explicit
node list is structurally a no-op and raises no error, on every event
type — `route_nodes`, `active_route_id`, location and ETA are unchanged —
but it is not entirely silent: `route_coordinates` is recomputed from the
unchanged node list, and on events other than LOW_FUEL the status is kept
and the alerts are replaced by a `Rerouted:` notice, while on a LOW_FUEL
event the status is overwritten to REROUTING and the alerts to
`Heading to fuel station...` (the safety override does not run because the
decision's action is REROUTE).  A Decision with a non-empty explicit node
list, in contrast, is applied as-is even when its node ids are unknown;
the unknown ids are only dropped from the recomputed coordinates (see the
counterexample). -/
theorem c9_unknown_route_id_structural_noop (routes : List (String × Route))
    (t : TruckState) (d : AgentDecision) (th : List String) (e : String)
    (rid : String)
    (ha : d.action = "REROUTE")
    (hn : d.impact_new_route_nodes = none ∨ d.impact_new_route_nodes = some [])
    (hr : d.impact_selected_route_id = some rid)
    (hp : rid = "" ∨ routePathsGet rid = none) :
    (trigger_random_event routes (.returned (some d) th) e t).route_nodes = t.route_nodes ∧
    (trigger_random_event routes (.returned (some d) th) e t).active_route_id
      = t.active_route_id ∧
    (trigger_random_event routes (.returned (some d) th) e t).location = t.location ∧
    (trigger_random_event routes (.returned (some d) th) e t).eta_minutes = t.eta_minutes ∧
    (trigger_random_event routes (.returned (some d) th) e t).route_coordinates
      = resolve_route t.route_nodes ∧
    (e ≠ "LOW_FUEL" →
      (trigger_random_event routes (.returned (some d) th) e t).status = t.status ∧
      (trigger_random_event routes (.returned (some d) th) e t).alerts
        = ["Rerouted: " ++ d.reasoning]) ∧
    (e = "LOW_FUEL" →
      (trigger_random_event routes (.returned (some d) th) e t).status = "REROUTING" ∧
      (trigger_random_event routes (.returned (some d) th) e t).alerts
        = ["Heading to fuel station..."]) := by
  have hstruct : applyRerouteStructure routes d ({ t with thoughts := th })
      = ({ t with thoughts := th }) := by
    unfold applyRerouteStructure
    rcases hn with hn | hn <;> rw [hn] <;> dsimp only <;> rw [hr] <;> dsimp only <;>
      rcases hp with hp | hp
    · rw [if_pos hp]
    · by_cases hrid : rid = ""
      · rw [if_pos hrid]
      · rw [if_neg hrid, hp]
    · rw [if_pos hp]
    · by_cases hrid : rid = ""
      · rw [if_pos hrid]
      · rw [if_neg hrid, hp]
  unfold trigger_random_event
  dsimp only
  rw [if_pos ha, if_neg (by simp [decisionNotReroute, ha])]
  unfold applyRerouteDecision
  dsimp only
  rw [hstruct]
  by_cases he : e = "LOW_FUEL"
  · rw [if_pos he]
    exact ⟨rfl, rfl, rfl, rfl, rfl, fun hne => absurd he hne, fun _ => ⟨rfl, rfl⟩⟩
  · rw [if_neg he]
    exact ⟨rfl, rfl, rfl, rfl, rfl, fun _ => ⟨rfl, rfl⟩, fun hhe => absurd hhe he⟩

/-- Witness for the amended C9: the Decision naming the unknown route id
`R_UNKNOWN` applied to truck T1 on a TRAFFIC_JAM event. -/
theorem c9_unknown_route_id_structural_noop_witness :
    unknownRouteDecision.action = "REROUTE" ∧
    unknownRouteDecision.impact_new_route_nodes = none ∧
    unknownRouteDecision.impact_selected_route_id = some "R_UNKNOWN" ∧
    routePathsGet "R_UNKNOWN" = none ∧
    ((trigger_random_event defaultRoutes (.returned (some unknownRouteDecision) [])
        "TRAFFIC_JAM" truckT1).route_nodes = truckT1.route_nodes ∧
     (trigger_random_event defaultRoutes (.returned (some unknownRouteDecision) [])
        "TRAFFIC_JAM" truckT1).active_route_id = truckT1.active_route_id ∧
     (trigger_random_event defaultRoutes (.returned (some unknownRouteDecision) [])
        "TRAFFIC_JAM" truckT1).location = truckT1.location ∧
     (trigger_random_event defaultRoutes (.returned (some unknownRouteDecision) [])
        "TRAFFIC_JAM" truckT1).eta_minutes = truckT1.eta_minutes ∧
     (trigger_random_event defaultRoutes (.returned (some unknownRouteDecision) [])
        "TRAFFIC_JAM" truckT1).route_coordinates = resolve_route truckT1.route_nodes ∧
     (("TRAFFIC_JAM" : String) ≠ "LOW_FUEL" →
       (trigger_random_event defaultRoutes (.returned (some unknownRouteDecision) [])
          "TRAFFIC_JAM" truckT1).status = truckT1.status ∧
       (trigger_random_event defaultRoutes (.returned (some unknownRouteDecision) [])
          "TRAFFIC_JAM" truckT1).alerts = ["Rerouted: " ++ unknownRouteDecision.reasoning]) ∧
     (("TRAFFIC_JAM" : String) = "LOW_FUEL" →
       (trigger_random_event defaultRoutes (.returned (some unknownRouteDecision) [])
          "TRAFFIC_JAM" truckT1).status = "REROUTING" ∧
       (trigger_random_event defaultRoutes (.returned (some unknownRouteDecision) [])
          "TRAFFIC_JAM" truckT1).alerts = ["Heading to fuel station..."])) :=
  ⟨rfl, rfl, rfl, rfl,
   c9_unknown_route_id_structural_noop defaultRoutes truckT1 unknownRouteDecision []
     "TRAFFIC_JAM" "R_UNKNOWN" rfl (Or.inl rfl) rfl (Or.inr rfl)⟩

/-- C10: the implicit plan invariant — `route_nodes` non-empty with its
head equal to `current_node` — is preserved by one full per-truck tick for
every catalog, decision source, interpolation and random-event draw: this
covers the movement step (waypoint pops update `current_node` with the new
head), decision application (reroutes rebuild the list as
`current_node :: rest`) and the safety-override path. -/
theorem c10_route_head_invariant (routes : List (String × Route))
    (decide : String → DecideOutcome) (interp : Location → Location → Location)
    (randomEvent : Option String) (t : TruckState)
    (hne : t.route_nodes ≠ [])
    (hh : t.route_nodes.head? = some t.current_node) :
    (tick_truck routes decide interp randomEvent t).route_nodes ≠ [] ∧
    (tick_truck routes decide interp randomEvent t).route_nodes.head?
      = some (tick_truck routes decide interp randomEvent t).current_node := by
  have h0 : HeadInv t := ⟨hne, hh⟩
  have h1 := tickMovePhase_headInv routes decide interp t h0
  cases randomEvent with
  | none => exact h1
  | some ev => exact trigger_headInv routes (decide ev) ev _ h1

/-- Witness for C10 at truck T1 with the reroute-to-city decision source
and a TRAFFIC_JAM random event. -/
theorem c10_route_head_invariant_witness :
    truckT1.route_nodes ≠ [] ∧
    truckT1.route_nodes.head? = some truckT1.current_node ∧
    ((tick_truck defaultRoutes rerouteToCityDecide holdInterp (some "TRAFFIC_JAM") truckT1).route_nodes ≠ [] ∧
     (tick_truck defaultRoutes rerouteToCityDecide holdInterp (some "TRAFFIC_JAM") truckT1).route_nodes.head?
       = some (tick_truck defaultRoutes rerouteToCityDecide holdInterp (some "TRAFFIC_JAM") truckT1).current_node) :=
  ⟨by decide, by decide,
   c10_route_head_invariant defaultRoutes rerouteToCityDecide holdInterp (some "TRAFFIC_JAM")
     truckT1 (by decide) (by decide)⟩
